import Mathlib

/-!
Verification of the generation-orchestration layer of a Kokoro-TTS Gradio
front end (source file: tts-with-logging.py).

Shallow embedding conventions:

* External collaborators (the KPipeline text segmenter, the per-voice
  reference pack returned by load_voice, and the KModel synthesis call)
  are opaque in the source; they are modelled as fields of an `Env`
  parameter.  A phoneme string is a Lean `String`, a reference embedding
  vector is abstracted to an `Int` identifier, a raw audio buffer is a
  `List Int` of samples, and a speed factor is a `Rat` (the UI slider
  ranges over 0.5-2.0).
* Python exceptions are modelled with `Except PyErr`.  The source's
  try/except catches exactly `gr.exceptions.Error`; those are the
  `PyErr.generationError` constructor, every other exception (KeyError,
  IndexError, arbitrary model failures) is `PyErr.fatal`.
* `CHAR_LIMIT` is `None if IS_DUPLICATE else 500000` in the source, where
  IS_DUPLICATE reads the SPACE_ID environment variable; it is therefore
  passed as an `Option Nat` parameter named `char_limit`.
* `CUDA_AVAILABLE` is the literal constant `False` in the source (line 31)
  and is embedded as the constant `false`.
* Python generators (`generate_all`) are embedded as the finite list of
  chunks yielded before termination, paired with the exception propagated
  at the end, if any (`List Chunk × Option PyErr`).
-/

namespace KokoroTTS

/-- Python exceptions, split by what the source's `except gr.exceptions.Error`
clause catches: `generationError` is a gradio error (recoverable, caught),
`fatal` is any other exception (KeyError, IndexError, ... — not caught). -/
inductive PyErr where
  | generationError (msg : String)
  | fatal (msg : String)
deriving DecidableEq, Repr

/-- One item yielded by the KPipeline segmenter: the source destructures it as
a triple `(graphemes, ps, tokens)` and uses only `ps`, the phoneme string. -/
structure SegResult where
  gs : String
  ps : String
  tokens : Unit
deriving DecidableEq, Repr

/-- An audio chunk as yielded or returned by the source: a (sample-rate,
sample-buffer) pair. -/
abbrev Chunk := Nat × List Int

/-- An external KPipeline instance: its call behaviour
`run text voice speed -> segments` and its `load_voice voice -> pack`, where
the pack is the (opaque) indexed collection of reference vectors; Python list
indexing (including negative indices) is abstracted as a total function on
`Int`. -/
structure Pipeline where
  run : String → String → Rat → List SegResult
  load_voice : String → (Int → Int)

/-- The external behaviour the orchestration code calls into: the two
pipelines built for language codes 'a' and 'b' (source line 48), and the
behaviour of the single KModel instance the `models` dict holds
(`kmodel ps ref_s speed`), which may raise. -/
structure Env where
  pipeA : Pipeline
  pipeB : Pipeline
  kmodel : String → Int → Rat → Except PyErr (List Int)

/-- Source line 31: `CUDA_AVAILABLE = False` — a hard-coded constant. -/
def CUDA_AVAILABLE : Bool := false

/-- Source lines 38-43: `models = {gpu: KModel(...) for gpu in [False]}` — the
dict is built over the singleton list `[False]`, so only the key `False` is
present. -/
def models (env : Env) : Bool → Option (String → Int → Rat → Except PyErr (List Int)) :=
  fun gpu => if gpu = false then some env.kmodel else none

/-- Source lines 54-56: `forward_gpu(ps, ref_s, speed)` returns
`models[True](ps, ref_s, speed)`; a missing key raises KeyError (fatal). -/
def forward_gpu (env : Env) (ps : String) (ref_s : Int) (speed : Rat) :
    Except PyErr (List Int) :=
  match models env true with
  | some m => m ps ref_s speed
  | none => Except.error (PyErr.fatal "KeyError: True")

/-- The CPU call site `models[False](ps, ref_s, speed)` appearing in the try
body and in the fallback branch. -/
def cpu_model (env : Env) (ps : String) (ref_s : Int) (speed : Rat) :
    Except PyErr (List Int) :=
  match models env false with
  | some m => m ps ref_s speed
  | none => Except.error (PyErr.fatal "KeyError: False")

/-- Source line 48: `pipelines = {lang_code: KPipeline(lang_code) for
lang_code in 'ab'}` — a dict with exactly the keys 'a' and 'b'; a lookup with
any other first character of the voice id raises KeyError. -/
def pipelines (env : Env) : Char → Option Pipeline :=
  fun lang_code =>
    if lang_code = 'a' then some env.pipeA
    else if lang_code = 'b' then some env.pipeB
    else none

/-- The per-segment try/except dispatch of source lines 70-86 (and its copy at
lines 126-142), abstracted over the outcomes of the two backend call sites:
`gpu_res` is what `forward_gpu(ps, ref_s, speed)` would return and `cpu_res`
what `models[False](ps, ref_s, speed)` would return (the source invokes the
identical expression in the try body and in the fallback branch, and the call
is a pure function of its arguments here).  Besides the resulting audio or
exception it returns how many times each backend is invoked on that control
path, as the pair (accelerated invocations, standard invocations). -/
def dispatch_policy (use_gpu : Bool) (gpu_res cpu_res : Except PyErr (List Int)) :
    Except PyErr (List Int) × Nat × Nat :=
  if use_gpu then
    match gpu_res with
    | Except.ok audio => (Except.ok audio, 1, 0)
    | Except.error (PyErr.generationError _) => (cpu_res, 1, 1)
    | Except.error (PyErr.fatal m) => (Except.error (PyErr.fatal m), 1, 0)
  else
    match cpu_res with
    | Except.ok audio => (Except.ok audio, 0, 1)
    | Except.error (PyErr.generationError m) =>
        (Except.error (PyErr.generationError m), 0, 1)
    | Except.error (PyErr.fatal m) => (Except.error (PyErr.fatal m), 0, 1)

/-- The audio produced for one segment: the dispatch policy instantiated at
the two concrete backend call sites of the source. -/
def synth_segment (env : Env) (use_gpu : Bool) (ps : String) (ref_s : Int)
    (speed : Rat) : Except PyErr (List Int) :=
  (dispatch_policy use_gpu (forward_gpu env ps ref_s speed)
    (cpu_model env ps ref_s speed)).1

/-- Python str.strip(): drop whitespace characters from both ends, embedded
over the string's character list (so that it evaluates by kernel
reduction). -/
def strip_chars (text : String) : String :=
  String.mk
    (((text.toList.dropWhile Char.isWhitespace).reverse.dropWhile
        Char.isWhitespace).reverse)

/-- Source lines 61 and 113: `text if CHAR_LIMIT is None else
text.strip()[:CHAR_LIMIT]` — strip, then keep the first CHAR_LIMIT
characters. -/
def normalize_text (char_limit : Option Nat) (text : String) : String :=
  match char_limit with
  | none => text
  | some n => String.mk ((strip_chars text).toList.take n)

/-- Source lines 59-92, `generate_first`: normalize, resolve the pipeline by
the first character of the voice id, load the voice pack, and return the
synthesized chunk and phoneme string of the FIRST segment only, or
`(None, '')` when the segmenter yields nothing. -/
def generate_first (char_limit : Option Nat) (env : Env) (text voice : String)
    (speed : Rat) (use_gpu : Bool) : Except PyErr (Option Chunk × String) :=
  let text := normalize_text char_limit text
  match voice.toList.head? with
  | none => Except.error (PyErr.fatal "IndexError: voice[0]")
  | some c =>
    match pipelines env c with
    | none => Except.error (PyErr.fatal "KeyError: pipelines")
    | some pipeline =>
      let pack := pipeline.load_voice voice
      let ug := use_gpu && CUDA_AVAILABLE
      match pipeline.run text voice speed with
      | [] => Except.ok (none, "")
      | seg :: _ =>
        let ref_s := pack ((seg.ps.length : Int) - 1)
        match synth_segment env ug seg.ps ref_s speed with
        | Except.ok audio => Except.ok (some (24000, audio), seg.ps)
        | Except.error e => Except.error e

/-- Source lines 95-97, `predict`: `generate_first(text, voice, speed,
use_gpu=False)[0]` — the chunk component of generate_first with the GPU
forced off; an exception propagates. -/
def predict (char_limit : Option Nat) (env : Env) (text voice : String)
    (speed : Rat) : Except PyErr (Option Chunk) :=
  match generate_first char_limit env text voice speed false with
  | Except.ok r => Except.ok r.1
  | Except.error e => Except.error e

/-- Source lines 100-108, `tokenize_first`: runs the segmenter on the RAW
text (no normalization) with the pipeline's default speed 1 and returns the
first segment's phoneme string, or the empty string when there is none. -/
def tokenize_first (env : Env) (text voice : String) : Except PyErr String :=
  match voice.toList.head? with
  | none => Except.error (PyErr.fatal "IndexError: voice[0]")
  | some c =>
    match pipelines env c with
    | none => Except.error (PyErr.fatal "KeyError: pipelines")
    | some pipeline =>
      match pipeline.run text voice 1 with
      | [] => Except.ok ""
      | seg :: _ => Except.ok seg.ps

/-- The streaming loop of source lines 122-151: for each segment, synthesize
and yield `(24000, audio)`; immediately after the FIRST yielded chunk also
yield the one-sample zero buffer `(24000, torch.zeros(1))`; an exception
terminates the generator, keeping the chunks already yielded. -/
def generate_all_loop (env : Env) (use_gpu : Bool) (pack : Int → Int)
    (speed : Rat) : List SegResult → Bool → List Chunk × Option PyErr
  | [], _ => ([], none)
  | seg :: rest, first =>
    let ref_s := pack ((seg.ps.length : Int) - 1)
    match synth_segment env use_gpu seg.ps ref_s speed with
    | Except.error e => ([], some e)
    | Except.ok audio =>
      let emitted := if first then [(24000, audio), (24000, [(0 : Int)])]
                     else [(24000, audio)]
      let tail := generate_all_loop env use_gpu pack speed rest false
      (emitted ++ tail.1, tail.2)

/-- Source lines 111-151, `generate_all`: same normalization and setup as
`generate_first`, then the streaming loop over ALL segments.  The generator
is embedded as the list of chunks it yields together with the exception it
ends by raising, if any. -/
def generate_all (char_limit : Option Nat) (env : Env) (text voice : String)
    (speed : Rat) (use_gpu : Bool) : List Chunk × Option PyErr :=
  let text := normalize_text char_limit text
  match voice.toList.head? with
  | none => ([], some (PyErr.fatal "IndexError: voice[0]"))
  | some c =>
    match pipelines env c with
    | none => ([], some (PyErr.fatal "KeyError: pipelines"))
    | some pipeline =>
      let pack := pipeline.load_voice voice
      let ug := use_gpu && CUDA_AVAILABLE
      generate_all_loop env ug pack speed (pipeline.run text voice speed) true

/-- The chunk sequence `generate_all` emits over a segment list when every
synthesis succeeds with audio `g seg`: one audio chunk per segment in order,
with the one-sample zero chunk right after the first. -/
def stream_chunks (g : SegResult → List Int) : List SegResult → List Chunk
  | [] => []
  | seg :: rest =>
      (24000, g seg) :: (24000, [(0 : Int)]) :: rest.map (fun s => (24000, g s))

/-! Helper lemmas shared by the claim theorems. -/

theorem synth_segment_false (env : Env) (ps : String) (ref_s : Int) (speed : Rat) :
    synth_segment env false ps ref_s speed = env.kmodel ps ref_s speed := by
  unfold synth_segment dispatch_policy cpu_model models
  cases h : env.kmodel ps ref_s speed with
  | ok a => simp [h]
  | error e => cases e <;> simp [h]

theorem and_cuda_false (b : Bool) : (b && CUDA_AVAILABLE) = false := by
  simp [CUDA_AVAILABLE]

theorem generate_first_gpu_irrel (cl : Option Nat) (env : Env) (text voice : String)
    (speed : Rat) (ug : Bool) :
    generate_first cl env text voice speed ug =
      generate_first cl env text voice speed false := by
  simp only [generate_first, and_cuda_false, Bool.false_and]

theorem generate_all_gpu_irrel (cl : Option Nat) (env : Env) (text voice : String)
    (speed : Rat) (ug : Bool) :
    generate_all cl env text voice speed ug =
      generate_all cl env text voice speed false := by
  simp only [generate_all, and_cuda_false, Bool.false_and]

theorem generate_first_cons (cl : Option Nat) (env : Env) (text voice : String)
    (speed : Rat) (ug : Bool) (c : Char) (p : Pipeline) (seg : SegResult)
    (rest : List SegResult) (a : List Int)
    (hc : voice.toList.head? = some c)
    (hp : pipelines env c = some p)
    (hrun : p.run (normalize_text cl text) voice speed = seg :: rest)
    (hk : env.kmodel seg.ps (p.load_voice voice ((seg.ps.length : Int) - 1)) speed
            = Except.ok a) :
    generate_first cl env text voice speed ug
      = Except.ok (some (24000, a), seg.ps) := by
  have hs : synth_segment env (ug && CUDA_AVAILABLE) seg.ps
      (p.load_voice voice ((seg.ps.length : Int) - 1)) speed = Except.ok a := by
    rw [and_cuda_false, synth_segment_false, hk]
  simp only [generate_first, hc, hp, hrun, hs]

theorem generate_all_loop_ok (env : Env) (pack : Int → Int) (speed : Rat)
    (g : SegResult → List Int) :
    ∀ segs : List SegResult,
      (∀ seg ∈ segs,
        synth_segment env false seg.ps (pack ((seg.ps.length : Int) - 1)) speed
          = Except.ok (g seg)) →
      generate_all_loop env false pack speed segs true = (stream_chunks g segs, none) ∧
      generate_all_loop env false pack speed segs false
        = (segs.map (fun s => (24000, g s)), none) := by
  intro segs
  induction segs with
  | nil => intro _; exact ⟨rfl, rfl⟩
  | cons seg rest ih =>
    intro h
    have hseg := h seg (by simp)
    have hrest := ih (fun s hs => h s (by simp [hs]))
    refine ⟨?_, ?_⟩
    · simp [generate_all_loop, hseg, stream_chunks, hrest.2]
    · simp [generate_all_loop, hseg, hrest.2]

theorem generate_all_loop_err (env : Env) (pack : Int → Int) (speed : Rat)
    (g : SegResult → List Int) (bad : SegResult) (e : PyErr) (rest : List SegResult)
    (hbad : synth_segment env false bad.ps (pack ((bad.ps.length : Int) - 1)) speed
        = Except.error e) :
    ∀ pre : List SegResult,
      (∀ seg ∈ pre,
        synth_segment env false seg.ps (pack ((seg.ps.length : Int) - 1)) speed
          = Except.ok (g seg)) →
      generate_all_loop env false pack speed (pre ++ bad :: rest) true
        = (stream_chunks g pre, some e) ∧
      generate_all_loop env false pack speed (pre ++ bad :: rest) false
        = (pre.map (fun s => (24000, g s)), some e) := by
  intro pre
  induction pre with
  | nil =>
    intro _
    constructor <;> simp [generate_all_loop, hbad, stream_chunks]
  | cons seg pre' ih =>
    intro h
    have hseg := h seg (by simp)
    have hrest := ih (fun s hs => h s (by simp [hs]))
    refine ⟨?_, ?_⟩
    · simp [generate_all_loop, hseg, stream_chunks, hrest.2]
    · simp [generate_all_loop, hseg, hrest.2]

theorem generate_all_ok (cl : Option Nat) (env : Env) (text voice : String)
    (speed : Rat) (ug : Bool) (c : Char) (p : Pipeline) (g : SegResult → List Int)
    (hc : voice.toList.head? = some c)
    (hp : pipelines env c = some p)
    (hok : ∀ seg ∈ p.run (normalize_text cl text) voice speed,
        env.kmodel seg.ps (p.load_voice voice ((seg.ps.length : Int) - 1)) speed
          = Except.ok (g seg)) :
    generate_all cl env text voice speed ug
      = (stream_chunks g (p.run (normalize_text cl text) voice speed), none) := by
  have hok' : ∀ seg ∈ p.run (normalize_text cl text) voice speed,
      synth_segment env false seg.ps
        (p.load_voice voice ((seg.ps.length : Int) - 1)) speed
        = Except.ok (g seg) := by
    intro seg hs
    rw [synth_segment_false]
    exact hok seg hs
  have hloop := (generate_all_loop_ok env (p.load_voice voice) speed g
    (p.run (normalize_text cl text) voice speed) hok').1
  simp only [generate_all, hc, hp, and_cuda_false]
  exact hloop

theorem stream_chunks_length (g : SegResult → List Int) (segs : List SegResult) :
    (stream_chunks g segs).length = if segs = [] then 0 else segs.length + 1 := by
  cases segs with
  | nil => rfl
  | cons seg rest => simp [stream_chunks]

/-! Concrete environments used as witnesses. -/

/-- A pipeline producing no segments, with a trivial voice pack. -/
def emptyPipe : Pipeline :=
  { run := fun _ _ _ => [], load_voice := fun _ => fun _ => 0 }

/-- A pipeline echoing its input text as the single segment's phoneme string,
with the identity voice pack. -/
def echoPipe : Pipeline :=
  { run := fun t _ _ => [⟨t, t, ()⟩], load_voice := fun _ => fun i => i }

/-- A pipeline producing two fixed segments, with the identity voice pack. -/
def twoSegPipe : Pipeline :=
  { run := fun _ _ _ => [⟨"t", "tst", ()⟩, ⟨"h", "hello", ()⟩],
    load_voice := fun _ => fun i => i }

/-- A pipeline producing three fixed segments, the middle one named "bad",
with the identity voice pack. -/
def threeSegPipe : Pipeline :=
  { run := fun _ _ _ => [⟨"x", "ok", ()⟩, ⟨"y", "bad", ()⟩, ⟨"z", "late", ()⟩],
    load_voice := fun _ => fun i => i }

/-- Environment whose segmenter yields nothing. -/
def emptyEnv : Env :=
  { pipeA := emptyPipe, pipeB := emptyPipe, kmodel := fun _ _ _ => Except.ok [] }

/-- Environment whose segmenter echoes the input text and whose model echoes
the reference vector it was given into the audio buffer. -/
def echoEnv : Env :=
  { pipeA := echoPipe, pipeB := echoPipe, kmodel := fun _ r _ => Except.ok [r] }

/-- Environment with two segments and a reference-echoing model. -/
def twoSegEnv : Env :=
  { pipeA := twoSegPipe, pipeB := twoSegPipe, kmodel := fun _ r _ => Except.ok [r] }

/-- Environment with three segments whose model fails fatally on the segment
with phoneme string "bad" and echoes the reference vector otherwise. -/
def badSegEnv : Env :=
  { pipeA := threeSegPipe, pipeB := threeSegPipe,
    kmodel := fun ps r _ =>
      if ps = "bad" then Except.error (PyErr.fatal "boom") else Except.ok [r] }

/-! Claim theorems. -/

/-- C1: over an input whose segmenter produces k segments, when every
synthesis succeeds generate_all emits exactly the k audio chunks in segment
order with the single silence-marker chunk (sample rate 24000, one-sample
zero buffer) immediately after the first audio chunk and nowhere else; hence
k+1 chunks when k is at least 1, and 0 chunks when k = 0. -/
theorem claim1_stream_shape (cl : Option Nat) (env : Env) (text voice : String)
    (speed : Rat) (ug : Bool) (c : Char) (p : Pipeline) (g : SegResult → List Int)
    (hc : voice.toList.head? = some c)
    (hp : pipelines env c = some p)
    (hok : ∀ seg ∈ p.run (normalize_text cl text) voice speed,
        env.kmodel seg.ps (p.load_voice voice ((seg.ps.length : Int) - 1)) speed
          = Except.ok (g seg)) :
    generate_all cl env text voice speed ug
      = (stream_chunks g (p.run (normalize_text cl text) voice speed), none) ∧
    (p.run (normalize_text cl text) voice speed = [] →
      (generate_all cl env text voice speed ug).1.length = 0) ∧
    (p.run (normalize_text cl text) voice speed ≠ [] →
      (generate_all cl env text voice speed ug).1.length
        = (p.run (normalize_text cl text) voice speed).length + 1) := by
  have hmain := generate_all_ok cl env text voice speed ug c p g hc hp hok
  refine ⟨hmain, ?_, ?_⟩
  · intro hnil
    rw [hmain]
    simp [stream_chunks_length, hnil]
  · intro hne
    rw [hmain]
    simp [stream_chunks_length, hne]

/-- Witness for C1: two segments yield three chunks — audio for segment one
(reference vector 2 echoed), the zero chunk, audio for segment two
(reference vector 4 echoed). -/
theorem claim1_stream_shape_witness :
    generate_all none twoSegEnv "x" "af_heart" 1 false
      = ([(24000, [(2 : Int)]), (24000, [(0 : Int)]), (24000, [(4 : Int)])], none) :=
  (claim1_stream_shape none twoSegEnv "x" "af_heart" 1 false 'a' twoSegPipe
    (fun seg => [(seg.ps.length : Int) - 1]) rfl rfl (fun _ _ => rfl)).1

/-- C2: the per-segment dispatch policy (the try/except of generate_first and
generate_all): when the accelerated backend is in use and its synthesis
raises a recoverable generation error, the orchestrator falls back exactly
once to the standard backend (accelerated invoked once, standard invoked
once, no accelerated retry) and returns whatever the standard backend
produces; if the standard backend itself fails, that error is propagated
with no further retry. -/
theorem claim2_fallback_once (gpu_res cpu_res : Except PyErr (List Int)) (m : String)
    (hgpu : gpu_res = Except.error (PyErr.generationError m)) :
    dispatch_policy true gpu_res cpu_res = (cpu_res, 1, 1) ∧
    (∀ e : PyErr, cpu_res = Except.error e →
      (dispatch_policy true gpu_res cpu_res).1 = Except.error e) := by
  subst hgpu
  refine ⟨rfl, ?_⟩
  intro e he
  subst he
  rfl

/-- Witness for C2: a recoverable accelerated failure followed by a fatal
standard failure — the policy invokes each backend once and propagates the
standard backend's error. -/
theorem claim2_fallback_once_witness :
    dispatch_policy true (Except.error (PyErr.generationError "quota"))
        (Except.error (PyErr.fatal "boom"))
      = (Except.error (PyErr.fatal "boom"), 1, 1) :=
  (claim2_fallback_once _ _ "quota" rfl).1

/-- C3: when the segments split as pre ++ bad :: rest, every segment of pre
synthesizes fine and bad fails, generate_all emits exactly the chunks for pre
(with the silence marker after the first, when due) and then terminates by
propagating bad's error — no chunk for bad or any later segment. -/
theorem claim3_error_prefix (cl : Option Nat) (env : Env) (text voice : String)
    (speed : Rat) (ug : Bool) (c : Char) (p : Pipeline) (g : SegResult → List Int)
    (pre : List SegResult) (bad : SegResult) (rest : List SegResult) (e : PyErr)
    (hc : voice.toList.head? = some c)
    (hp : pipelines env c = some p)
    (hrun : p.run (normalize_text cl text) voice speed = pre ++ bad :: rest)
    (hok : ∀ seg ∈ pre,
        env.kmodel seg.ps (p.load_voice voice ((seg.ps.length : Int) - 1)) speed
          = Except.ok (g seg))
    (hbad : env.kmodel bad.ps (p.load_voice voice ((bad.ps.length : Int) - 1)) speed
        = Except.error e) :
    generate_all cl env text voice speed ug = (stream_chunks g pre, some e) := by
  have hok' : ∀ seg ∈ pre,
      synth_segment env false seg.ps
        (p.load_voice voice ((seg.ps.length : Int) - 1)) speed
        = Except.ok (g seg) := by
    intro seg hs
    rw [synth_segment_false]
    exact hok seg hs
  have hbad' : synth_segment env false bad.ps
      (p.load_voice voice ((bad.ps.length : Int) - 1)) speed = Except.error e := by
    rw [synth_segment_false]
    exact hbad
  have hloop := (generate_all_loop_err env (p.load_voice voice) speed g bad e rest
    hbad' pre hok').1
  simp only [generate_all, hc, hp, and_cuda_false, hrun]
  exact hloop

/-- Witness for C3: three segments where the second fails fatally — exactly
the first segment's audio chunk and the silence marker are emitted, then the
error propagates; nothing for the failing or the later segment. -/
theorem claim3_error_prefix_witness :
    generate_all none badSegEnv "x" "af_heart" 1 false
      = ([(24000, [(1 : Int)]), (24000, [(0 : Int)])], some (PyErr.fatal "boom")) := by
  have h := claim3_error_prefix none badSegEnv "x" "af_heart" 1 false 'a' threeSegPipe
    (fun seg => [(seg.ps.length : Int) - 1])
    [⟨"x", "ok", ()⟩] ⟨"y", "bad", ()⟩ [⟨"z", "late", ()⟩] (PyErr.fatal "boom")
    rfl rfl rfl
    (by intro seg hs; simp only [List.mem_singleton] at hs; subst hs; rfl)
    rfl
  exact h

/-- C4: input normalization — with a configured character limit the text is
stripped of leading and trailing whitespace and truncated to the first
characterLimit characters (limit 10 on "abcdefghijklmnop" gives exactly its
first 10 characters, also when surrounded by whitespace); with no limit the
text passes through unmodified; and both generate_first and generate_all
behave on any text exactly as they would with no limit on the already
normalized text, i.e. the segmenter only ever sees the normalized text. -/
theorem claim4_normalization :
    (∀ text : String, normalize_text none text = text) ∧
    normalize_text (some 10) "abcdefghijklmnop" = "abcdefghij" ∧
    normalize_text (some 10) "  abcdefghijklmnop  " = "abcdefghij" ∧
    (∀ (cl : Option Nat) (env : Env) (text voice : String) (speed : Rat) (ug : Bool),
      generate_first cl env text voice speed ug
        = generate_first none env (normalize_text cl text) voice speed ug ∧
      generate_all cl env text voice speed ug
        = generate_all none env (normalize_text cl text) voice speed ug) := by
  refine ⟨fun _ => rfl, by decide, by decide, ?_⟩
  intro cl env text voice speed ug
  exact ⟨rfl, rfl⟩

/-- C5: whenever the segmenter produces zero segments, generate_first returns
the absent chunk together with the empty phoneme string, raising nothing. -/
theorem claim5_zero_segments (cl : Option Nat) (env : Env) (text voice : String)
    (speed : Rat) (ug : Bool) (c : Char) (p : Pipeline)
    (hc : voice.toList.head? = some c)
    (hp : pipelines env c = some p)
    (hrun : p.run (normalize_text cl text) voice speed = []) :
    generate_first cl env text voice speed ug = Except.ok (none, "") := by
  simp only [generate_first, hc, hp, hrun]

/-- Witness for C5: the empty-segment environment on empty text. -/
theorem claim5_zero_segments_witness :
    generate_first none emptyEnv "" "af_heart" 1 false = Except.ok (none, "") :=
  claim5_zero_segments none emptyEnv "" "af_heart" 1 false 'a' emptyPipe rfl rfl rfl

/-- C6: when the segmenter produces a first segment, generate_first returns
the single (24000 Hz chunk, phoneme string) pair synthesized from that first
segment; the result does not depend on any later segment (rest is
universally quantified and absent from the conclusion). -/
theorem claim6_first_only (cl : Option Nat) (env : Env) (text voice : String)
    (speed : Rat) (ug : Bool) (c : Char) (p : Pipeline) (seg : SegResult)
    (rest : List SegResult) (a : List Int)
    (hc : voice.toList.head? = some c)
    (hp : pipelines env c = some p)
    (hrun : p.run (normalize_text cl text) voice speed = seg :: rest)
    (hk : env.kmodel seg.ps (p.load_voice voice ((seg.ps.length : Int) - 1)) speed
        = Except.ok a) :
    generate_first cl env text voice speed ug
      = Except.ok (some (24000, a), seg.ps) :=
  generate_first_cons cl env text voice speed ug c p seg rest a hc hp hrun hk

/-- Witness for C6: the echo environment on input "hi" — the single segment's
phoneme string is "hi" and the chunk carries the echoed reference vector 1. -/
theorem claim6_first_only_witness :
    generate_first none echoEnv "hi" "af_heart" 1 true
      = Except.ok (some (24000, [(1 : Int)]), "hi") :=
  claim6_first_only none echoEnv "hi" "af_heart" 1 true 'a' echoPipe
    ⟨"hi", "hi", ()⟩ [] [(1 : Int)] rfl rfl rfl rfl

/-- C7: the reference vector handed to synthesis is always the voice pack
element at index (phoneme-sequence length minus 1): with a model that echoes
the reference vector it receives, generate_first returns the pack at index
(first segment's length - 1), and generate_all's chunk stream carries, for
every segment in order, exactly the pack at that segment's (length - 1). -/
theorem claim7_ref_vector (cl : Option Nat) (env : Env) (text voice : String)
    (speed : Rat) (ug : Bool) (c : Char) (p : Pipeline) (seg : SegResult)
    (rest : List SegResult)
    (hc : voice.toList.head? = some c)
    (hp : pipelines env c = some p)
    (hecho : ∀ (ps : String) (r : Int) (s : Rat), env.kmodel ps r s = Except.ok [r])
    (hrun : p.run (normalize_text cl text) voice speed = seg :: rest) :
    generate_first cl env text voice speed ug
      = Except.ok (some (24000, [p.load_voice voice ((seg.ps.length : Int) - 1)]),
          seg.ps) ∧
    generate_all cl env text voice speed ug
      = (stream_chunks (fun s => [p.load_voice voice ((s.ps.length : Int) - 1)])
          (seg :: rest), none) := by
  constructor
  · exact generate_first_cons cl env text voice speed ug c p seg rest _ hc hp hrun
      (hecho _ _ _)
  · have h := generate_all_ok cl env text voice speed ug c p
      (fun s => [p.load_voice voice ((s.ps.length : Int) - 1)]) hc hp
      (fun s _ => hecho _ _ _)
    rw [h, hrun]

/-- Witness for C7: the two-segment environment with identity pack — the
chunks carry vectors 2 and 4, the pack indices (3-1) and (5-1) for the
phoneme strings "tst" and "hello". -/
theorem claim7_ref_vector_witness :
    generate_first none twoSegEnv "x" "af_heart" 1 false
      = Except.ok (some (24000, [(2 : Int)]), "tst") ∧
    generate_all none twoSegEnv "x" "af_heart" 1 false
      = ([(24000, [(2 : Int)]), (24000, [(0 : Int)]), (24000, [(4 : Int)])], none) :=
  claim7_ref_vector none twoSegEnv "x" "af_heart" 1 false 'a' twoSegPipe
    ⟨"t", "tst", ()⟩ [⟨"h", "hello", ()⟩] rfl rfl (fun _ _ _ => rfl) rfl

/-- C8: predict returns exactly the audio-chunk component of generate_first
with the accelerated flag forced off (the phoneme string discarded, errors
propagated), and — since generate_first never depends on that flag in this
build — it agrees with the chunk component of generate_first at ANY flag
value, so predict never uses the accelerated backend. -/
theorem claim8_predict_refines :
    ∀ (cl : Option Nat) (env : Env) (text voice : String) (speed : Rat),
      predict cl env text voice speed
        = (generate_first cl env text voice speed false).map Prod.fst ∧
      (∀ ug : Bool, predict cl env text voice speed
        = (generate_first cl env text voice speed ug).map Prod.fst) := by
  intro cl env text voice speed
  have hbase : predict cl env text voice speed
      = (generate_first cl env text voice speed false).map Prod.fst := by
    unfold predict
    cases h : generate_first cl env text voice speed false <;> simp [h, Except.map]
  refine ⟨hbase, fun ug => ?_⟩
  rw [generate_first_gpu_irrel cl env text voice speed ug]
  exact hbase

/-- C9: in this build the accelerated capability flag is the constant false,
the backend table holds only the standard (key false) model, forward_gpu
always fails its key lookup with a fatal KeyError, every per-segment
synthesis runs the standard model whatever the use_gpu argument, and both
generate_first and generate_all are independent of the use_gpu argument. -/
theorem claim9_accelerated_dead :
    CUDA_AVAILABLE = false ∧
    (∀ env : Env, models env true = none) ∧
    (∀ (env : Env) (ps : String) (ref_s : Int) (speed : Rat),
      forward_gpu env ps ref_s speed = Except.error (PyErr.fatal "KeyError: True")) ∧
    (∀ (env : Env) (ug : Bool) (ps : String) (ref_s : Int) (speed : Rat),
      synth_segment env (ug && CUDA_AVAILABLE) ps ref_s speed
        = env.kmodel ps ref_s speed) ∧
    (∀ (cl : Option Nat) (env : Env) (text voice : String) (speed : Rat) (ug : Bool),
      generate_first cl env text voice speed ug
        = generate_first cl env text voice speed false ∧
      generate_all cl env text voice speed ug
        = generate_all cl env text voice speed false) := by
  refine ⟨rfl, fun _ => rfl, fun _ _ _ _ => rfl, ?_, ?_⟩
  · intro env ug ps ref_s speed
    rw [and_cuda_false, synth_segment_false]
  · intro cl env text voice speed ug
    exact ⟨generate_first_gpu_irrel cl env text voice speed ug,
      generate_all_gpu_irrel cl env text voice speed ug⟩

/-- C10: tokenize_first applies no normalization — with a segmenter stub that
echoes its input text as the phoneme string, the raw text (whitespace and
all, with no truncation) comes back verbatim — and it returns the empty
string when the segmenter produces no segment. -/
theorem claim10_tokenize_raw (env₁ env₂ : Env)
    (h₁ : ∀ (t v : String) (s : Rat), env₁.pipeA.run t v s = [⟨t, t, ()⟩])
    (h₂ : ∀ (t v : String) (s : Rat), env₂.pipeA.run t v s = []) :
    (∀ text : String, tokenize_first env₁ text "af_heart" = Except.ok text) ∧
    (∀ text : String, tokenize_first env₂ text "af_heart" = Except.ok "") ∧
    (∀ (env : Env) (text voice : String) (c : Char) (p : Pipeline)
        (seg : SegResult) (rest : List SegResult),
      voice.toList.head? = some c → pipelines env c = some p →
      p.run text voice 1 = seg :: rest →
      tokenize_first env text voice = Except.ok seg.ps) := by
  have hc : ("af_heart" : String).toList.head? = some 'a' := rfl
  refine ⟨?_, ?_, ?_⟩
  · intro text
    simp [tokenize_first, hc, pipelines, h₁]
  · intro text
    simp [tokenize_first, hc, pipelines, h₂]
  · intro env text voice c p seg rest hc' hp' hrun'
    simp only [tokenize_first, hc', hp', hrun']

/-- Witness for C10: a whitespace-padded over-long text reaches the echoing
segmenter untouched, and the empty segmenter yields the empty string. -/
theorem claim10_tokenize_raw_witness :
    tokenize_first echoEnv "  spaced raw text  " "af_heart"
      = Except.ok "  spaced raw text  " ∧
    tokenize_first emptyEnv "x" "af_heart" = Except.ok "" :=
  ⟨(claim10_tokenize_raw echoEnv emptyEnv (fun _ _ _ => rfl) (fun _ _ _ => rfl)).1
      "  spaced raw text  ",
   (claim10_tokenize_raw echoEnv emptyEnv (fun _ _ _ => rfl) (fun _ _ _ => rfl)).2.1 "x"⟩

end KokoroTTS
